import Mathlib

/-
Verification of the TalksDocs credential and session lifecycle manager.

This file is a shallow embedding of the authentication core of the
repository:

  app/utils/hashing.py      password hashing and verification (bcrypt wrappers)
  app/db/crud.py            user / refresh-token / verification-token /
                            password-reset-token repository operations
  app/api/auth.py           the login, refresh, logout and reset-password
                            endpoints orchestrating the crud layer
  app/settings.py           the configuration defaults

Modelling conventions:
  - timestamps are natural numbers counting seconds; a Python
    `timedelta(minutes=m)` is `m * 60`, `timedelta(hours=h)` is `h * 3600`,
    `timedelta(days=d)` is `d * 86400`;
  - opaque identifiers (UUID primary keys, opaque token values, e-mail
    addresses as dictionary keys) are natural numbers; the randomness of
    `uuid4()` and `secrets.token_urlsafe` is modelled by passing the fresh
    value as an explicit argument;
  - the SQLAlchemy session is a `DB` value holding the four tables as
    lists; object mutation plus commit is modelled as mapping an update
    over the list keyed by the row's primary key;
  - external leaves (the bcrypt primitives, the JWT encoder) are either
    parameters of the functions that call them or abstracted to the data
    the code actually derives from them;
  - e-mail delivery (`app/utils/email.py`) is fire-and-forget in the code;
    the endpoints below return the list of e-mail addresses a notification
    was queued for.
-/

namespace TalksDocs

/-- Configuration defaults from `app/settings.py` (class `Settings`).
Only the fields the authentication core reads are modelled. -/
structure Settings where
  ACCESS_TOKEN_EXPIRE_MINUTES : Nat := 15
  REFRESH_TOKEN_EXPIRE_DAYS : Nat := 7
  VERIFICATION_TOKEN_EXPIRE_HOURS : Nat := 24
  PASSWORD_RESET_TOKEN_EXPIRE_HOURS : Nat := 1
  MAX_LOGIN_ATTEMPTS : Nat := 5
  LOCKOUT_DURATION_MINUTES : Nat := 30
  REQUIRE_EMAIL_VERIFICATION : Bool := true
  deriving DecidableEq

/-- The settings object instantiated at the bottom of `app/settings.py`. -/
def defaultSettings : Settings := {}

/- ## Password hashing (`app/utils/hashing.py`)

Passwords are Python `str` values, modelled as `List Char`; the byte
strings handed to the bcrypt primitives are `List Nat` (byte values).
`bcrypt.hashpw` (with its random `gensalt`) and `bcrypt.checkpw` are
external leaves and appear as function parameters. -/

/-- UTF-8 encoding of one character, as performed by `str.encode('utf-8')`. -/
def utf8Bytes (c : Char) : List Nat :=
  let n := c.toNat
  if n < 0x80 then [n]
  else if n < 0x800 then [0xC0 + n / 0x40, 0x80 + n % 0x40]
  else if n < 0x10000 then
    [0xE0 + n / 0x1000, 0x80 + (n / 0x40) % 0x40, 0x80 + n % 0x40]
  else
    [0xF0 + n / 0x40000, 0x80 + (n / 0x1000) % 0x40,
     0x80 + (n / 0x40) % 0x40, 0x80 + n % 0x40]

/-- UTF-8 encoding of a Python string (`str.encode('utf-8')`). -/
def utf8Encode : List Char → List Nat
  | [] => []
  | c :: cs => utf8Bytes c ++ utf8Encode cs

/-- The byte string both functions in `app/utils/hashing.py` pass to the
bcrypt primitive: `plain_password[:72].encode('utf-8')`. The slice
`[:72]` keeps the first 72 characters (code points), not bytes. -/
def bytesForBcrypt (p : List Char) : List Nat :=
  utf8Encode (p.take 72)

/-- Function `verify_password` of `app/utils/hashing.py`:
`bcrypt.checkpw(plain_password[:72].encode('utf-8'), hashed.encode('utf-8'))`. -/
def verify_password (checkpw : List Nat → List Nat → Bool)
    (plain_password : List Char) (hashed_password : List Nat) : Bool :=
  checkpw (bytesForBcrypt plain_password) hashed_password

/-- Function `get_password_hash` of `app/utils/hashing.py`:
`bcrypt.hashpw(password[:72].encode('utf-8'), bcrypt.gensalt())`.
The salted primitive (`hashpw` composed with the generated salt) is the
parameter `hashpw`. -/
def get_password_hash (hashpw : List Nat → List Nat) (password : List Char) : List Nat :=
  hashpw (bytesForBcrypt password)

/- ## Data model (`app/db/models.py`)

Rows are records; `Column(..., default=...)` becomes a field default.
The `server_default=func.now()` creation timestamps are informational and
modelled as plain fields. -/

/-- Row of table `users` (class `User` in `app/db/models.py`). -/
structure UserR where
  uid : Nat
  email : Nat
  hashed_password : Nat
  is_active : Bool := true
  deactivated_at : Option Nat := none
  is_verified : Bool := false
  is_superuser : Bool := false
  failed_login_attempts : Nat := 0
  locked_until : Option Nat := none
  password_changed_at : Option Nat := none
  created_at : Nat := 0
  last_login_at : Option Nat := none
  deriving DecidableEq

/-- Row of table `refresh_tokens` (class `RefreshToken`). -/
structure RefreshTokenR where
  rid : Nat
  token : Nat
  user_id : Nat
  device_info : Option Nat := none
  ip_address : Option Nat := none
  is_revoked : Bool := false
  expires_at : Nat
  created_at : Nat := 0
  revoked_at : Option Nat := none
  family_id : Nat
  replaced_by : Option Nat := none
  deriving DecidableEq

/-- The `token_type` column of `verification_tokens`; the code uses the
strings "email_verification" and "email_change". -/
inductive VTokenType where
  | email_verification
  | email_change
  deriving DecidableEq

/-- Row of table `verification_tokens` (class `VerificationToken`). -/
structure VerificationTokenR where
  vid : Nat
  token : Nat
  user_id : Nat
  token_type : VTokenType := .email_verification
  new_email : Option Nat := none
  is_used : Bool := false
  expires_at : Nat
  used_at : Option Nat := none
  deriving DecidableEq

/-- Row of table `password_reset_tokens` (class `PasswordResetToken`). -/
structure PasswordResetTokenR where
  pid : Nat
  token : Nat
  user_id : Nat
  is_used : Bool := false
  expires_at : Nat
  used_at : Option Nat := none
  deriving DecidableEq

/-- The database session state: the four tables the authentication core
touches (projects and documents are out of scope of the claims). -/
structure DB where
  users : List UserR := []
  refresh_tokens : List RefreshTokenR := []
  verification_tokens : List VerificationTokenR := []
  password_reset_tokens : List PasswordResetTokenR := []
  deriving DecidableEq

/- ## User CRUD (`app/db/crud.py`) -/

/-- Function `get_user` of `app/db/crud.py`. -/
def get_user (db : DB) (user_id : Nat) : Option UserR :=
  db.users.find? (fun u => u.uid == user_id)

/-- Function `get_user_by_email` of `app/db/crud.py`. -/
def get_user_by_email (db : DB) (email : Nat) : Option UserR :=
  db.users.find? (fun u => u.email == email)

/-- Mutating a loaded `User` row and committing: the row keyed by `uid`
is replaced by its update. -/
def DB.updateUser (db : DB) (uid : Nat) (f : UserR → UserR) : DB :=
  { db with users := db.users.map (fun u => if u.uid == uid then f u else u) }

/-- Function `activate_user` of `app/db/crud.py` (a missing user raises
`ValueError` in Python; the claims only apply it to existing users). -/
def activate_user (db : DB) (user_id : Nat) : DB :=
  db.updateUser user_id (fun u => { u with is_active := true, deactivated_at := none })

/-- Function `update_user_password` of `app/db/crud.py`: sets
`hashed_password := get_password_hash(new_password)` and
`password_changed_at := now`. The hashing leaf is the parameter `hashF`. -/
def update_user_password (hashF : Nat → Nat) (now : Nat)
    (user_id new_password : Nat) (db : DB) : DB :=
  db.updateUser user_id (fun u =>
    { u with hashed_password := hashF new_password, password_changed_at := some now })

/-- Function `increment_failed_login` of `app/db/crud.py`: adds one to
`failed_login_attempts` and, when the new count is at least
`settings.MAX_LOGIN_ATTEMPTS`, sets `locked_until` to now plus
`LOCKOUT_DURATION_MINUTES` minutes. -/
def increment_failed_login (s : Settings) (now : Nat) (u : UserR) : UserR :=
  let u := { u with failed_login_attempts := u.failed_login_attempts + 1 }
  if s.MAX_LOGIN_ATTEMPTS ≤ u.failed_login_attempts then
    { u with locked_until := some (now + s.LOCKOUT_DURATION_MINUTES * 60) }
  else
    u

/-- Function `reset_failed_login` of `app/db/crud.py`. -/
def reset_failed_login (now : Nat) (u : UserR) : UserR :=
  { u with failed_login_attempts := 0, locked_until := none, last_login_at := some now }

/-- Function `is_user_locked` of `app/db/crud.py`: false when
`locked_until` is unset, otherwise `utcnow() < locked_until`. -/
def is_user_locked (now : Nat) (u : UserR) : Bool :=
  match u.locked_until with
  | none => false
  | some t => decide (now < t)

/- ## Refresh-token CRUD (`app/db/crud.py`) -/

/-- Function `create_refresh_token` of `app/db/crud.py`. `freshId` models
the `uuid4` primary-key default and `freshFam` the `uuid4()` used when no
`family_id` is supplied. -/
def create_refresh_token (db : DB) (user_id token expires_at : Nat)
    (device_info ip_address : Option Nat) (family_id : Option Nat)
    (freshId freshFam : Nat) : DB × RefreshTokenR :=
  let t : RefreshTokenR :=
    { rid := freshId, token := token, user_id := user_id,
      device_info := device_info, ip_address := ip_address,
      expires_at := expires_at, created_at := 0,
      family_id := family_id.getD freshFam }
  ({ db with refresh_tokens := db.refresh_tokens ++ [t] }, t)

/-- Function `get_refresh_token` of `app/db/crud.py`: first row whose
`token` column equals the presented value. -/
def get_refresh_token (db : DB) (token : Nat) : Option RefreshTokenR :=
  db.refresh_tokens.find? (fun t => t.token == token)

/-- Function `revoke_refresh_token` of `app/db/crud.py`: on the row keyed
by `rid`, sets `is_revoked := True`, `revoked_at := utcnow()` and
unconditionally assigns `replaced_by` from the parameter (whose Python
default is `None`). -/
def revoke_refresh_token (db : DB) (now rid : Nat) (replaced_by : Option Nat) : DB :=
  { db with refresh_tokens := db.refresh_tokens.map (fun t =>
      if t.rid == rid then
        { t with is_revoked := true, revoked_at := some now, replaced_by := replaced_by }
      else t) }

/-- Function `revoke_token_family` of `app/db/crud.py`: bulk update of all
rows with the given `family_id` and `is_revoked == False`; returns the
number of rows updated. -/
def revoke_token_family (db : DB) (now family_id : Nat) : DB × Nat :=
  let hit := fun (t : RefreshTokenR) => t.family_id == family_id && !t.is_revoked
  ({ db with refresh_tokens := db.refresh_tokens.map (fun t =>
      if hit t then { t with is_revoked := true, revoked_at := some now } else t) },
   db.refresh_tokens.countP hit)

/-- Function `revoke_all_user_tokens` of `app/db/crud.py`: bulk update of
all rows with the given `user_id` and `is_revoked == False`. -/
def revoke_all_user_tokens (db : DB) (now user_id : Nat) : DB × Nat :=
  let hit := fun (t : RefreshTokenR) => t.user_id == user_id && !t.is_revoked
  ({ db with refresh_tokens := db.refresh_tokens.map (fun t =>
      if hit t then { t with is_revoked := true, revoked_at := some now } else t) },
   db.refresh_tokens.countP hit)

/- ## Verification and password-reset token CRUD (`app/db/crud.py`) -/

/-- Function `create_verification_token` of `app/db/crud.py`: first marks
used every row of the same `user_id` and `token_type` with
`is_used == False`, then inserts a fresh token expiring
`VERIFICATION_TOKEN_EXPIRE_HOURS` hours from now. -/
def create_verification_token (s : Settings) (db : DB) (now user_id : Nat)
    (token_type : VTokenType) (new_email : Option Nat)
    (freshId freshTok : Nat) : DB × VerificationTokenR :=
  let marked := db.verification_tokens.map (fun t =>
    if t.user_id == user_id && decide (t.token_type = token_type) && !t.is_used then
      { t with is_used := true }
    else t)
  let tok : VerificationTokenR :=
    { vid := freshId, token := freshTok, user_id := user_id,
      token_type := token_type, new_email := new_email,
      expires_at := now + s.VERIFICATION_TOKEN_EXPIRE_HOURS * 3600 }
  ({ db with verification_tokens := marked ++ [tok] }, tok)

/-- Function `create_password_reset_token` of `app/db/crud.py`: first
marks used every unused reset token of the user, then inserts a fresh one
expiring `PASSWORD_RESET_TOKEN_EXPIRE_HOURS` hours from now. -/
def create_password_reset_token (s : Settings) (db : DB)
    (now user_id freshId freshTok : Nat) : DB × PasswordResetTokenR :=
  let marked := db.password_reset_tokens.map (fun t =>
    if t.user_id == user_id && !t.is_used then { t with is_used := true } else t)
  let tok : PasswordResetTokenR :=
    { pid := freshId, token := freshTok, user_id := user_id,
      expires_at := now + s.PASSWORD_RESET_TOKEN_EXPIRE_HOURS * 3600 }
  ({ db with password_reset_tokens := marked ++ [tok] }, tok)

/-- Function `get_password_reset_token` of `app/db/crud.py`: first row
with the presented value, `is_used == False` and `expires_at > utcnow()`. -/
def get_password_reset_token (db : DB) (now token : Nat) : Option PasswordResetTokenR :=
  db.password_reset_tokens.find? (fun t =>
    t.token == token && !t.is_used && decide (now < t.expires_at))

/-- Function `use_password_reset_token` of `app/db/crud.py`. -/
def use_password_reset_token (db : DB) (now pid : Nat) : DB :=
  { db with password_reset_tokens := db.password_reset_tokens.map (fun t =>
      if t.pid == pid then { t with is_used := true, used_at := some now } else t) }

/- ## Token issuance (`app/utils/security.py`) and the endpoints
(`app/api/auth.py`)

The JWT access token is tamper-evident data derived from the subject and
the clock; it is modelled by the subject it carries. The random refresh
token value produced by `secrets.token_urlsafe(32)` is the explicit
parameter `newTokenVal`. -/

/-- Error kinds raised by the endpoints (each is an `HTTPException` with a
distinct detail string in `app/api/auth.py`). -/
inductive AuthError where
  | invalid_credentials
  | account_locked
  | email_not_verified
  | token_not_found
  | token_revoked
  | token_expired
  deriving DecidableEq

/-- The response body of `app/schemas/auth.py` class `Token`: the access
token is modelled by its subject claim, `token_type` is the constant
"bearer" and is omitted. -/
structure TokenPairOut where
  access_user : Nat
  refresh_token : Nat
  expires_in : Nat
  deriving DecidableEq

/-- Function `create_token_pair` of `app/utils/security.py`: the returned
dictionary, paired with `refresh_expires_at = utcnow() +
timedelta(days=REFRESH_TOKEN_EXPIRE_DAYS)`. -/
def create_token_pair (s : Settings) (now user_id newTokenVal : Nat) :
    TokenPairOut × Nat :=
  ({ access_user := user_id, refresh_token := newTokenVal,
     expires_in := s.ACCESS_TOKEN_EXPIRE_MINUTES * 60 },
   now + s.REFRESH_TOKEN_EXPIRE_DAYS * 86400)

/-- Outcome of one call to the `refresh` endpoint: the committed database
state, the HTTP result, and the addresses `send_security_alert_email` was
called for. -/
structure RefreshResult where
  db : DB
  result : Except AuthError TokenPairOut
  alerts : List Nat

/-- The reactivation step shared by the `login` and `refresh` handlers of
`app/api/auth.py`: `if not user.is_active: crud.activate_user(db, user.id)`
for the loaded user. A missing user cannot occur on these paths in Python
(the row was loaded via a foreign key or the e-mail lookup); it is
modelled as no write. -/
def maybe_reactivate (db : DB) (user_id : Nat) : DB :=
  match get_user db user_id with
  | some u => if !u.is_active then activate_user db u.uid else db
  | none => db

/-- The body of endpoint `refresh_token` in `app/api/auth.py` after the
`crud.get_refresh_token` lookup. `snap` is the state of the loaded ORM
row as this request read it: every attribute check of `db_token` reads
`snap`, while every write goes to the current database keyed by the
row's primary key. Factoring the endpoint this way lets the same code
path be run both sequentially (`refresh_token` below) and from a stale
snapshot, which is exactly what a second concurrent session holds.
A missing owning user would raise `AttributeError` in Python; it is
modelled as no reactivation and no alert, and the claims always supply
the owner. -/
def refresh_from_snapshot (s : Settings) (now newRid newTokenVal : Nat)
    (dev ip : Option Nat) (snap : RefreshTokenR) (db : DB) : RefreshResult :=
  if snap.is_revoked then
    let db := (revoke_token_family db now snap.family_id).1
    let alerts := match get_user db snap.user_id with
      | some u => [u.email]
      | none => []
    { db := db, result := .error .token_revoked, alerts := alerts }
  else if snap.expires_at < now then
    { db := db, result := .error .token_expired, alerts := [] }
  else
    let db := maybe_reactivate db snap.user_id
    let pe := create_token_pair s now snap.user_id newTokenVal
    let db := (create_refresh_token db snap.user_id newTokenVal pe.2
                 dev ip (some snap.family_id) newRid 0).1
    let db := revoke_refresh_token db now snap.rid (some newRid)
    { db := db, result := .ok pe.1, alerts := [] }

/-- Endpoint `refresh_token` of `app/api/auth.py`: look the presented
value up, then run the rest of the handler on the row as read. -/
def refresh_token (s : Settings) (now newRid newTokenVal : Nat)
    (dev ip : Option Nat) (presented : Nat) (db : DB) : RefreshResult :=
  match get_refresh_token db presented with
  | none => { db := db, result := .error .token_not_found, alerts := [] }
  | some snap => refresh_from_snapshot s now newRid newTokenVal dev ip snap db

/-- Outcome of one call to the `login` endpoint. -/
structure LoginResult where
  db : DB
  result : Except AuthError TokenPairOut

/-- Endpoint `login` of `app/api/auth.py`. `verifyP` stands for
`hashing.verify_password`; `newRid`, `newTokenVal` and `freshFam` model
the fresh UUIDs and the random refresh-token value. The check order is
the code's: user lookup, lockout, password, reactivation, e-mail
verification, counter reset, token issuance. -/
def login (s : Settings) (verifyP : Nat → Nat → Bool)
    (now newRid newTokenVal freshFam : Nat) (dev ip : Option Nat)
    (email password : Nat) (db : DB) : LoginResult :=
  match get_user_by_email db email with
  | none => { db := db, result := .error .invalid_credentials }
  | some user =>
    if is_user_locked now user then
      { db := db, result := .error .account_locked }
    else if !(verifyP password user.hashed_password) then
      { db := db.updateUser user.uid (increment_failed_login s now),
        result := .error .invalid_credentials }
    else
      let db := if !user.is_active then activate_user db user.uid else db
      if s.REQUIRE_EMAIL_VERIFICATION && !user.is_verified then
        { db := db, result := .error .email_not_verified }
      else
        let db := db.updateUser user.uid (reset_failed_login now)
        let pe := create_token_pair s now user.uid newTokenVal
        let db := (create_refresh_token db user.uid newTokenVal pe.2
                     dev ip none newRid freshFam).1
        { db := db, result := .ok pe.1 }

/-- Endpoint `logout` of `app/api/auth.py`: revoke the presented token
(with the Python-default `replaced_by=None`) only when it exists and
belongs to the requesting user; always answers success. -/
def logout (now current_user_id presented : Nat) (db : DB) : DB :=
  match get_refresh_token db presented with
  | none => db
  | some t =>
    if t.user_id == current_user_id then
      revoke_refresh_token db now t.rid none
    else db

/-- Outcome of one call to the `reset_password` endpoint: the committed
state, whether the call succeeded, and the addresses a password-changed
notification was queued for. -/
structure ResetResult where
  db : DB
  succeeded : Bool
  notified : List Nat

/-- Endpoint `reset_password` of `app/api/auth.py`: a valid (present,
unused, unexpired) token updates the user's password hash, marks the
token used and revokes every session of the user. -/
def reset_password (hashF : Nat → Nat) (now presentedTok new_password : Nat)
    (db : DB) : ResetResult :=
  match get_password_reset_token db now presentedTok with
  | none => { db := db, succeeded := false, notified := [] }
  | some tok =>
    let mail := match get_user db tok.user_id with
      | some u => [u.email]
      | none => []
    let db := update_user_password hashF now tok.user_id new_password db
    let db := use_password_reset_token db now tok.pid
    let db := (revoke_all_user_tokens db now tok.user_id).1
    { db := db, succeeded := true, notified := mail }

/- ## Issuance sequences (for the single-active-token invariant) -/

/-- One issuance call: either `crud.create_verification_token` or
`crud.create_password_reset_token`, with its clock and fresh values. -/
inductive IssueOp where
  | verif (now user_id : Nat) (token_type : VTokenType) (new_email : Option Nat)
      (freshId freshTok : Nat)
  | reset (now user_id freshId freshTok : Nat)

/-- Apply one issuance call to the database. -/
def applyIssueOp (s : Settings) (db : DB) : IssueOp → DB
  | .verif now uid tt ne fid ftok =>
      (create_verification_token s db now uid tt ne fid ftok).1
  | .reset now uid fid ftok =>
      (create_password_reset_token s db now uid fid ftok).1

/-- Apply a sequence of issuance calls, oldest first. -/
def applyIssueOps (s : Settings) (ops : List IssueOp) (db : DB) : DB :=
  ops.foldl (applyIssueOp s) db

/-- Number of unused verification tokens of one (user, type) key. -/
def unusedVerifCount (db : DB) (user_id : Nat) (tt : VTokenType) : Nat :=
  db.verification_tokens.countP (fun t =>
    t.user_id == user_id && decide (t.token_type = tt) && !t.is_used)

/-- Number of unused password-reset tokens of one user. -/
def unusedResetCount (db : DB) (user_id : Nat) : Nat :=
  db.password_reset_tokens.countP (fun t => t.user_id == user_id && !t.is_used)

/-- The single-active-token invariant of the spec, section 3: at most one
unused token per (user, kind), password reset counting as its own kind. -/
def singleActiveInv (db : DB) : Prop :=
  (∀ uid tt, unusedVerifCount db uid tt ≤ 1) ∧
  (∀ uid, unusedResetCount db uid ≤ 1)

/-- Pairwise-distinct opaque values in the refresh-token table (the
`token` column is declared `unique=True` in `app/db/models.py`). -/
def DB.wfTokens (db : DB) : Prop :=
  db.refresh_tokens.Pairwise (fun a b => a.token ≠ b.token)

/-- Concrete one-user database with a single Active refresh token, the
shared starting state of the C3 interleaving. -/
def raceDB : DB :=
  { users := [{ uid := 1, email := 10, hashed_password := 3 }],
    refresh_tokens := [{ rid := 10, token := 100, user_id := 1,
                         expires_at := 1000, family_id := 5 }] }

/-- The Active row both concurrent refresh requests load in step 1. -/
def raceSnap : RefreshTokenR :=
  { rid := 10, token := 100, user_id := 1, expires_at := 1000, family_id := 5 }

/- ## Theorems -/

/- ### Shared helper lemmas -/

/-- A map that leaves a list unchanged leaves every member unchanged. -/
theorem map_eq_self_of_mem {α : Type} {f : α → α} {l : List α}
    (h : l.map f = l) {x : α} (hx : x ∈ l) : f x = x := by
  induction l with
  | nil => cases hx
  | cons y t ih =>
    simp only [List.map_cons, List.cons.injEq] at h
    rcases List.mem_cons.mp hx with rfl | hx'
    · exact h.1
    · exact ih h.2 hx'

/-- Looking a refresh token up by value after a bulk update that preserves
the value column returns the updated image of the original row, provided
the value column is unique. -/
theorem find?_token_map {g : RefreshTokenR → RefreshTokenR}
    (hg : ∀ t, (g t).token = t.token) :
    ∀ {l : List RefreshTokenR},
      l.Pairwise (fun a b => a.token ≠ b.token) →
      ∀ {r : RefreshTokenR}, r ∈ l →
        (l.map g).find? (fun t => t.token == r.token) = some (g r) := by
  intro l hpw r hr
  induction l with
  | nil => cases hr
  | cons a t ih =>
    rcases List.pairwise_cons.mp hpw with ⟨ha, ht⟩
    rcases List.mem_cons.mp hr with rfl | hr'
    · rw [List.map_cons, List.find?_cons_of_pos _ (by simp [hg])]
    · have hne : (g a).token ≠ r.token := by
        rw [hg a]; exact ha r hr'
      rw [List.map_cons, List.find?_cons_of_neg _ (by simpa using hne)]
      exact ih ht hr'

/-- Reactivating a user touches only the `users` table. -/
theorem maybe_reactivate_refresh_tokens (db : DB) (user_id : Nat) :
    (maybe_reactivate db user_id).refresh_tokens = db.refresh_tokens := by
  unfold maybe_reactivate
  cases get_user db user_id with
  | none => rfl
  | some u =>
    show (if !u.is_active then activate_user db u.uid else db).refresh_tokens
        = db.refresh_tokens
    cases u.is_active <;> rfl

/-- Shape of a successful pass through the `refresh` handler: with a
snapshot that is neither revoked nor strictly expired, the call returns
the new token pair, queues no alert, and the refresh-token table becomes
the old table plus the fresh row, with the row keyed by the snapshot's id
marked rotated. -/
theorem refresh_success_shape (s : Settings) (now newRid newTokenVal : Nat)
    (dev ip : Option Nat) (snap : RefreshTokenR) (db : DB)
    (hrev : snap.is_revoked = false) (hexp : ¬ snap.expires_at < now) :
    (refresh_from_snapshot s now newRid newTokenVal dev ip snap db).result
        = .ok { access_user := snap.user_id, refresh_token := newTokenVal,
                expires_in := s.ACCESS_TOKEN_EXPIRE_MINUTES * 60 } ∧
    (refresh_from_snapshot s now newRid newTokenVal dev ip snap db).alerts = [] ∧
    (refresh_from_snapshot s now newRid newTokenVal dev ip snap db).db.refresh_tokens
        = (db.refresh_tokens ++
            [({ rid := newRid, token := newTokenVal, user_id := snap.user_id,
                device_info := dev, ip_address := ip,
                expires_at := now + s.REFRESH_TOKEN_EXPIRE_DAYS * 86400,
                family_id := snap.family_id } : RefreshTokenR)]).map (fun t =>
            if t.rid == snap.rid then
              { t with is_revoked := true, revoked_at := some now,
                       replaced_by := some newRid }
            else t) := by
  unfold refresh_from_snapshot
  rw [if_neg (by simp [hrev]), if_neg hexp]
  refine ⟨rfl, rfl, ?_⟩
  show ((create_refresh_token (maybe_reactivate db snap.user_id) snap.user_id
          newTokenVal (create_token_pair s now snap.user_id newTokenVal).2
          dev ip (some snap.family_id) newRid 0).1.refresh_tokens).map _ = _
  rw [create_refresh_token, maybe_reactivate_refresh_tokens]
  rfl

/-- C1: a successful refresh (presented token found, not revoked, not
strictly expired) marks the presented row rotated — `is_revoked = true`
and `replaced_by` pointing at the fresh row's id — and inserts a fresh
row that shares the presented row's `family_id`, is not revoked, and
expires strictly in the future, i.e. starts Active. -/
theorem C1_rotation_invariant (s : Settings) (now newRid newTokenVal : Nat)
    (dev ip : Option Nat) (presented : Nat) (db : DB) (tok : RefreshTokenR)
    (hfind : get_refresh_token db presented = some tok)
    (hrev : tok.is_revoked = false)
    (hexp : ¬ tok.expires_at < now)
    (hfresh : ∀ t ∈ db.refresh_tokens, t.rid ≠ newRid)
    (hdays : 0 < s.REFRESH_TOKEN_EXPIRE_DAYS) :
    (refresh_token s now newRid newTokenVal dev ip presented db).result
        = .ok { access_user := tok.user_id, refresh_token := newTokenVal,
                expires_in := s.ACCESS_TOKEN_EXPIRE_MINUTES * 60 } ∧
    (∀ t ∈ (refresh_token s now newRid newTokenVal dev ip presented db).db.refresh_tokens,
        t.rid = tok.rid → t.is_revoked = true ∧ t.replaced_by = some newRid) ∧
    (∃ t ∈ (refresh_token s now newRid newTokenVal dev ip presented db).db.refresh_tokens,
        t.rid = newRid ∧ t.family_id = tok.family_id ∧ t.is_revoked = false ∧
        now < t.expires_at) := by
  have hmem := List.mem_of_find?_eq_some hfind
  have hne : tok.rid ≠ newRid := hfresh tok hmem
  have hs := refresh_success_shape s now newRid newTokenVal dev ip tok db hrev hexp
  simp only [refresh_token, hfind]
  refine ⟨hs.1, ?_, ?_⟩
  · intro t ht hrid
    rw [hs.2.2] at ht
    rcases List.mem_map.mp ht with ⟨t0, ht0, rfl⟩
    rcases List.mem_append.mp ht0 with h0 | h0
    · by_cases h : t0.rid = tok.rid
      · simp [h]
      · rw [if_neg (by simpa using h)] at hrid
        exact absurd hrid h
    · rcases List.mem_singleton.mp h0 with rfl
      rw [if_neg (by simpa using Ne.symm hne)] at hrid
      exact absurd hrid.symm hne
  · rw [hs.2.2]
    refine ⟨_, List.mem_map_of_mem _
      (List.mem_append_right _ (List.mem_singleton_self _)), ?_⟩
    rw [if_neg (by simpa using Ne.symm hne)]
    exact ⟨rfl, rfl, rfl, Nat.lt_add_of_pos_right
      (Nat.mul_pos hdays (by norm_num))⟩

/-- Witness for C1: a concrete one-token database rotated at time 500. -/
theorem C1_rotation_invariant_witness :
    (refresh_token defaultSettings 500 11 101 none none 100
        { users := [{ uid := 1, email := 10, hashed_password := 3 }],
          refresh_tokens := [{ rid := 10, token := 100, user_id := 1,
                               expires_at := 1000, family_id := 5 }] }).result
        = .ok { access_user := 1, refresh_token := 101, expires_in := 900 } ∧
    (∀ t ∈ (refresh_token defaultSettings 500 11 101 none none 100
        { users := [{ uid := 1, email := 10, hashed_password := 3 }],
          refresh_tokens := [{ rid := 10, token := 100, user_id := 1,
                               expires_at := 1000, family_id := 5 }] }).db.refresh_tokens,
        t.rid = 10 → t.is_revoked = true ∧ t.replaced_by = some 11) ∧
    (∃ t ∈ (refresh_token defaultSettings 500 11 101 none none 100
        { users := [{ uid := 1, email := 10, hashed_password := 3 }],
          refresh_tokens := [{ rid := 10, token := 100, user_id := 1,
                               expires_at := 1000, family_id := 5 }] }).db.refresh_tokens,
        t.rid = 11 ∧ t.family_id = 5 ∧ t.is_revoked = false ∧
        500 < t.expires_at) :=
  C1_rotation_invariant defaultSettings 500 11 101 none none 100 _
    { rid := 10, token := 100, user_id := 1, expires_at := 1000, family_id := 5 }
    rfl rfl (by decide) (by decide) (by decide)

/-- C9, counterexample: at the boundary `expires_at = now` (token not
revoked, `expires_at` not after `now`), the code does not fail with the
expired error: the comparison in `app/api/auth.py` is strict
(`expires_at < now`), so the call succeeds and rotates the presented
token, changing stored state. -/
theorem C9_boundary_counterexample :
    (refresh_token defaultSettings 500 11 101 none none 100
        { users := [{ uid := 1, email := 10, hashed_password := 3 }],
          refresh_tokens := [{ rid := 10, token := 100, user_id := 1,
                               expires_at := 500, family_id := 5 }] }).result
        = .ok { access_user := 1, refresh_token := 101, expires_in := 900 } ∧
    (∃ t ∈ (refresh_token defaultSettings 500 11 101 none none 100
        { users := [{ uid := 1, email := 10, hashed_password := 3 }],
          refresh_tokens := [{ rid := 10, token := 100, user_id := 1,
                               expires_at := 500, family_id := 5 }] }).db.refresh_tokens,
        t.rid = 10 ∧ t.is_revoked = true) := by
  exact ⟨rfl, by decide⟩

/-- C9, amended: a refresh presenting a token that exists, is not
revoked, and whose `expires_at` is strictly earlier than `now` fails
with the expired error and leaves the entire stored state unchanged (no
revocation, no new token, no alert). -/
theorem C9_strictly_expired_noop (s : Settings) (now newRid newTokenVal : Nat)
    (dev ip : Option Nat) (presented : Nat) (db : DB) (tok : RefreshTokenR)
    (hfind : get_refresh_token db presented = some tok)
    (hrev : tok.is_revoked = false)
    (hexp : tok.expires_at < now) :
    refresh_token s now newRid newTokenVal dev ip presented db
      = { db := db, result := .error .token_expired, alerts := [] } := by
  simp only [refresh_token, hfind, refresh_from_snapshot]
  rw [if_neg (by simp [hrev]), if_pos hexp]

/-- Witness for C9: a token expired one second before the call. -/
theorem C9_strictly_expired_noop_witness :
    refresh_token defaultSettings 501 11 101 none none 100
        { users := [{ uid := 1, email := 10, hashed_password := 3 }],
          refresh_tokens := [{ rid := 10, token := 100, user_id := 1,
                               expires_at := 500, family_id := 5 }] }
      = { db := { users := [{ uid := 1, email := 10, hashed_password := 3 }],
                  refresh_tokens := [{ rid := 10, token := 100, user_id := 1,
                                       expires_at := 500, family_id := 5 }] },
          result := .error .token_expired, alerts := [] } :=
  C9_strictly_expired_noop defaultSettings 501 11 101 none none 100 _
    { rid := 10, token := 100, user_id := 1, expires_at := 500, family_id := 5 }
    rfl rfl (by decide)

/-- C2: a refresh presenting a token that exists but is already revoked
fails with the distinct revoked/reused error, leaves every token of the
presented token's family revoked in the post state (in particular every
not-yet-revoked member, including a still-active rotated successor), and
queues exactly one security alert, addressed to the owning user. -/
theorem C2_reuse_detection (s : Settings) (now newRid newTokenVal : Nat)
    (dev ip : Option Nat) (presented : Nat) (db : DB)
    (tok : RefreshTokenR) (u : UserR)
    (hfind : get_refresh_token db presented = some tok)
    (hrev : tok.is_revoked = true)
    (huser : get_user db tok.user_id = some u) :
    (refresh_token s now newRid newTokenVal dev ip presented db).result
        = .error .token_revoked ∧
    (∀ t ∈ (refresh_token s now newRid newTokenVal dev ip presented db).db.refresh_tokens,
        t.family_id = tok.family_id → t.is_revoked = true) ∧
    (refresh_token s now newRid newTokenVal dev ip presented db).alerts = [u.email] := by
  have husers : get_user (revoke_token_family db now tok.family_id).1 tok.user_id
      = get_user db tok.user_id := rfl
  simp only [refresh_token, hfind, refresh_from_snapshot]
  rw [if_pos (by simp [hrev])]
  rw [husers, huser]
  refine ⟨rfl, ?_, rfl⟩
  intro t ht hfam
  rcases List.mem_map.mp ht with ⟨t0, ht0, rfl⟩
  by_cases h : (t0.family_id == tok.family_id && !t0.is_revoked) = true
  · rw [if_pos h]
  · rw [if_neg h] at hfam ⊢
    simp only [Bool.and_eq_true, beq_iff_eq, Bool.not_eq_true', not_and] at h
    simpa using h hfam

/-- Witness for C2: a two-token family whose rotated original is
replayed; the still-active successor also ends up revoked and the owner
is alerted once. -/
theorem C2_reuse_detection_witness :
    (refresh_token defaultSettings 500 12 102 none none 100
        { users := [{ uid := 1, email := 10, hashed_password := 3 }],
          refresh_tokens :=
            [{ rid := 10, token := 100, user_id := 1, is_revoked := true,
               expires_at := 1000, family_id := 5, replaced_by := some 11 },
             { rid := 11, token := 101, user_id := 1,
               expires_at := 2000, family_id := 5 }] }).result
        = .error .token_revoked ∧
    (∀ t ∈ (refresh_token defaultSettings 500 12 102 none none 100
        { users := [{ uid := 1, email := 10, hashed_password := 3 }],
          refresh_tokens :=
            [{ rid := 10, token := 100, user_id := 1, is_revoked := true,
               expires_at := 1000, family_id := 5, replaced_by := some 11 },
             { rid := 11, token := 101, user_id := 1,
               expires_at := 2000, family_id := 5 }] }).db.refresh_tokens,
        t.family_id = 5 → t.is_revoked = true) ∧
    (refresh_token defaultSettings 500 12 102 none none 100
        { users := [{ uid := 1, email := 10, hashed_password := 3 }],
          refresh_tokens :=
            [{ rid := 10, token := 100, user_id := 1, is_revoked := true,
               expires_at := 1000, family_id := 5, replaced_by := some 11 },
             { rid := 11, token := 101, user_id := 1,
               expires_at := 2000, family_id := 5 }] }).alerts = [10] :=
  C2_reuse_detection defaultSettings 500 12 102 none none 100 _
    { rid := 10, token := 100, user_id := 1, is_revoked := true,
      expires_at := 1000, family_id := 5, replaced_by := some 11 }
    { uid := 1, email := 10, hashed_password := 3 }
    rfl rfl rfl

/-- C6: in the `login` handler the lockout check precedes password
verification — a locked account fails with the locked error and the
stored state is untouched (no failure-counter increment), whatever the
password verifier would answer — and the e-mail-verification check runs
only after the password verified, so a wrong password yields the
credentials error regardless of the account's verification status. -/
theorem C6_login_check_order (s : Settings) (verifyP : Nat → Nat → Bool)
    (now newRid newTokenVal freshFam : Nat) (dev ip : Option Nat)
    (email password : Nat) (db : DB) (u : UserR)
    (hfind : get_user_by_email db email = some u) :
    (is_user_locked now u = true →
      (login s verifyP now newRid newTokenVal freshFam dev ip email password db).result
          = .error .account_locked ∧
      (login s verifyP now newRid newTokenVal freshFam dev ip email password db).db
          = db) ∧
    (is_user_locked now u = false →
      verifyP password u.hashed_password = false →
      (login s verifyP now newRid newTokenVal freshFam dev ip email password db).result
          = .error .invalid_credentials) := by
  constructor
  · intro hl
    simp [login, hfind, hl]
  · intro hl hv
    simp [login, hfind, hl, hv]

/-- Witness for C6: a locked user at time 0 and a wrong password against
an unlocked user, under a verifier that compares values. -/
theorem C6_login_check_order_witness :
    ((login defaultSettings (fun p h => p == h) 0 11 101 5 none none 10 3
        { users := [{ uid := 1, email := 10, hashed_password := 3,
                      locked_until := some 9 }] }).result
        = .error .account_locked ∧
     (login defaultSettings (fun p h => p == h) 0 11 101 5 none none 10 3
        { users := [{ uid := 1, email := 10, hashed_password := 3,
                      locked_until := some 9 }] }).db
        = { users := [{ uid := 1, email := 10, hashed_password := 3,
                        locked_until := some 9 }] }) ∧
    (login defaultSettings (fun p h => p == h) 0 11 101 5 none none 10 4
        { users := [{ uid := 1, email := 10, hashed_password := 3 }] }).result
        = .error .invalid_credentials :=
  ⟨(C6_login_check_order defaultSettings (fun p h => p == h) 0 11 101 5 none none
      10 3 { users := [{ uid := 1, email := 10, hashed_password := 3,
                         locked_until := some 9 }] }
      { uid := 1, email := 10, hashed_password := 3, locked_until := some 9 }
      rfl).1 (by decide),
   (C6_login_check_order defaultSettings (fun p h => p == h) 0 11 101 5 none none
      10 4 { users := [{ uid := 1, email := 10, hashed_password := 3 }] }
      { uid := 1, email := 10, hashed_password := 3 }
      rfl).2 (by decide) (by decide)⟩

/-- C10: `logout` of an already-rotated token (revoked, with
`replaced_by` set) is not a state no-op: `revoke_refresh_token` assigns
`replaced_by` from its defaulted parameter, so the row keeps
`is_revoked = true` but its `replaced_by` is reset to none (erasing the
successor link) and its `revoked_at` is overwritten with the current
time. -/
theorem C10_logout_overwrites_rotation (now current presented : Nat) (db : DB)
    (tok : RefreshTokenR) (x : Nat)
    (hfind : get_refresh_token db presented = some tok)
    (howner : tok.user_id = current)
    (_hrev : tok.is_revoked = true)
    (hrepl : tok.replaced_by = some x) :
    (∀ t ∈ (logout now current presented db).refresh_tokens,
        t.rid = tok.rid → t.is_revoked = true ∧ t.replaced_by = none ∧
        t.revoked_at = some now) ∧
    logout now current presented db ≠ db := by
  have hmem := List.mem_of_find?_eq_some hfind
  simp only [logout, hfind, howner, beq_self_eq_true, if_true, revoke_refresh_token]
  constructor
  · intro t ht hrid
    rcases List.mem_map.mp ht with ⟨t0, ht0, rfl⟩
    by_cases h : t0.rid = tok.rid
    · simp [h]
    · rw [if_neg (by simpa using h)] at hrid
      exact absurd hrid h
  · intro hEq
    have hl : db.refresh_tokens.map (fun t =>
        if t.rid == tok.rid then
          { t with is_revoked := true, revoked_at := some now, replaced_by := none }
        else t) = db.refresh_tokens := congrArg DB.refresh_tokens hEq
    have htok := map_eq_self_of_mem hl hmem
    rw [if_pos (by simp)] at htok
    have : (none : Option Nat) = tok.replaced_by := congrArg RefreshTokenR.replaced_by htok
    rw [hrepl] at this
    cases this

/-- Witness for C10: logging a rotated token out at time 7 erases its
successor link. -/
theorem C10_logout_overwrites_rotation_witness :
    (∀ t ∈ (logout 7 1 100
        { refresh_tokens := [{ rid := 10, token := 100, user_id := 1,
                               is_revoked := true, revoked_at := some 5,
                               expires_at := 1000, family_id := 5,
                               replaced_by := some 11 }] }).refresh_tokens,
        t.rid = 10 → t.is_revoked = true ∧ t.replaced_by = none ∧
        t.revoked_at = some 7) ∧
    logout 7 1 100
        { refresh_tokens := [{ rid := 10, token := 100, user_id := 1,
                               is_revoked := true, revoked_at := some 5,
                               expires_at := 1000, family_id := 5,
                               replaced_by := some 11 }] }
      ≠ { refresh_tokens := [{ rid := 10, token := 100, user_id := 1,
                               is_revoked := true, revoked_at := some 5,
                               expires_at := 1000, family_id := 5,
                               replaced_by := some 11 }] } :=
  C10_logout_overwrites_rotation 7 1 100 _
    { rid := 10, token := 100, user_id := 1, is_revoked := true,
      revoked_at := some 5, expires_at := 1000, family_id := 5,
      replaced_by := some 11 } 11 rfl rfl rfl rfl

/-- C7: a successful password reset (presented reset token present,
unused, unexpired) marks the token used, replaces the user's password
hash with the hash of the new password, revokes every refresh token of
that user, and consequently every refresh token that existed before the
reset fails a subsequent refresh call with the revoked error. -/
theorem C7_reset_revokes_sessions (hashF : Nat → Nat)
    (now presentedTok new_password : Nat) (db : DB)
    (tok : PasswordResetTokenR)
    (hfind : get_password_reset_token db now presentedTok = some tok)
    (hwf : db.wfTokens) :
    (reset_password hashF now presentedTok new_password db).succeeded = true ∧
    (∀ t ∈ (reset_password hashF now presentedTok new_password db).db.password_reset_tokens,
        t.pid = tok.pid → t.is_used = true) ∧
    (∀ u ∈ (reset_password hashF now presentedTok new_password db).db.users,
        u.uid = tok.user_id →
          u.hashed_password = hashF new_password ∧
          u.password_changed_at = some now) ∧
    (∀ t ∈ (reset_password hashF now presentedTok new_password db).db.refresh_tokens,
        t.user_id = tok.user_id → t.is_revoked = true) ∧
    (∀ r ∈ db.refresh_tokens, r.user_id = tok.user_id →
        ∀ (s2 : Settings) (now2 newRid2 newTok2 : Nat) (dev2 ip2 : Option Nat),
          (refresh_token s2 now2 newRid2 newTok2 dev2 ip2 r.token
              (reset_password hashF now presentedTok new_password db).db).result
            = .error .token_revoked) := by
  refine ⟨?_, ?_, ?_, ?_, ?_⟩
  · simp [reset_password, hfind]
  · simp only [reset_password, hfind]
    intro t ht hpid
    rcases List.mem_map.mp ht with ⟨t0, ht0, rfl⟩
    by_cases h : t0.pid = tok.pid
    · simp [h]
    · rw [if_neg (by simpa using h)] at hpid
      exact absurd hpid h
  · simp only [reset_password, hfind]
    intro u hu huid
    rcases List.mem_map.mp hu with ⟨u0, hu0, rfl⟩
    by_cases h : u0.uid = tok.user_id
    · simp [h]
    · rw [if_neg (by simpa using h)] at huid
      exact absurd huid h
  · simp only [reset_password, hfind]
    intro t ht huid
    rcases List.mem_map.mp ht with ⟨t0, ht0, rfl⟩
    by_cases h : (t0.user_id == tok.user_id && !t0.is_revoked) = true
    · rw [if_pos h]
    · rw [if_neg h] at huid ⊢
      simp only [Bool.and_eq_true, beq_iff_eq, Bool.not_eq_true', not_and] at h
      simpa using h huid
  · intro r hr huid s2 now2 newRid2 newTok2 dev2 ip2
    have hg : ∀ t : RefreshTokenR,
        ((fun t => if t.user_id == tok.user_id && !t.is_revoked then
            { t with is_revoked := true, revoked_at := some now }
          else t) t).token = t.token := by
      intro t
      by_cases h : (t.user_id == tok.user_id && !t.is_revoked) = true <;> simp [h]
    have hlook : get_refresh_token
        (reset_password hashF now presentedTok new_password db).db r.token
        = some ((fun t => if t.user_id == tok.user_id && !t.is_revoked then
            { t with is_revoked := true, revoked_at := some now }
          else t) r) := by
      simp only [reset_password, hfind]
      exact find?_token_map hg hwf hr
    have hrev2 : ((fun t => if t.user_id == tok.user_id && !t.is_revoked then
        { t with is_revoked := true, revoked_at := some now }
      else t) r).is_revoked = true := by
      by_cases hc : (r.user_id == tok.user_id && !r.is_revoked) = true
      · simp [hc]
      · have hr2 : r.is_revoked = true := by
          have hc' := hc
          simp only [Bool.and_eq_true, beq_iff_eq, Bool.not_eq_true', not_and] at hc'
          simpa using hc' huid
        simp [hc, hr2]
    simp only [refresh_token, hlook, refresh_from_snapshot]
    rw [if_pos hrev2]

/-- Witness for C7: a user with one active session resets the password
with a valid token; the session is revoked and its refresh fails. -/
theorem C7_reset_revokes_sessions_witness :
    (reset_password (fun n => n) 500 200 7
        { users := [{ uid := 1, email := 10, hashed_password := 3 }],
          refresh_tokens := [{ rid := 10, token := 100, user_id := 1,
                               expires_at := 1000, family_id := 5 }],
          password_reset_tokens := [{ pid := 20, token := 200, user_id := 1,
                                      expires_at := 600 }] }).succeeded = true ∧
    (∀ t ∈ (reset_password (fun n => n) 500 200 7
        { users := [{ uid := 1, email := 10, hashed_password := 3 }],
          refresh_tokens := [{ rid := 10, token := 100, user_id := 1,
                               expires_at := 1000, family_id := 5 }],
          password_reset_tokens := [{ pid := 20, token := 200, user_id := 1,
                                      expires_at := 600 }] }).db.password_reset_tokens,
        t.pid = 20 → t.is_used = true) ∧
    (∀ u ∈ (reset_password (fun n => n) 500 200 7
        { users := [{ uid := 1, email := 10, hashed_password := 3 }],
          refresh_tokens := [{ rid := 10, token := 100, user_id := 1,
                               expires_at := 1000, family_id := 5 }],
          password_reset_tokens := [{ pid := 20, token := 200, user_id := 1,
                                      expires_at := 600 }] }).db.users,
        u.uid = 1 → u.hashed_password = 7 ∧ u.password_changed_at = some 500) ∧
    (∀ t ∈ (reset_password (fun n => n) 500 200 7
        { users := [{ uid := 1, email := 10, hashed_password := 3 }],
          refresh_tokens := [{ rid := 10, token := 100, user_id := 1,
                               expires_at := 1000, family_id := 5 }],
          password_reset_tokens := [{ pid := 20, token := 200, user_id := 1,
                                      expires_at := 600 }] }).db.refresh_tokens,
        t.user_id = 1 → t.is_revoked = true) ∧
    (∀ r ∈ ({ users := [{ uid := 1, email := 10, hashed_password := 3 }],
              refresh_tokens := [{ rid := 10, token := 100, user_id := 1,
                                   expires_at := 1000, family_id := 5 }],
              password_reset_tokens := [{ pid := 20, token := 200, user_id := 1,
                                          expires_at := 600 }] } : DB).refresh_tokens,
        r.user_id = 1 →
        ∀ (s2 : Settings) (now2 newRid2 newTok2 : Nat) (dev2 ip2 : Option Nat),
          (refresh_token s2 now2 newRid2 newTok2 dev2 ip2 r.token
              (reset_password (fun n => n) 500 200 7
                { users := [{ uid := 1, email := 10, hashed_password := 3 }],
                  refresh_tokens := [{ rid := 10, token := 100, user_id := 1,
                                       expires_at := 1000, family_id := 5 }],
                  password_reset_tokens := [{ pid := 20, token := 200, user_id := 1,
                                              expires_at := 600 }] }).db).result
            = .error .token_revoked) :=
  C7_reset_revokes_sessions (fun n => n) 500 200 7
    { users := [{ uid := 1, email := 10, hashed_password := 3 }],
      refresh_tokens := [{ rid := 10, token := 100, user_id := 1,
                           expires_at := 1000, family_id := 5 }],
      password_reset_tokens := [{ pid := 20, token := 200, user_id := 1,
                                  expires_at := 600 }] }
    { pid := 20, token := 200, user_id := 1, expires_at := 600 }
    rfl (by simp [DB.wfTokens])

/-- Issuing a verification token keeps every per-key unused count at one
or below. -/
theorem unusedVerifCount_create_le (s : Settings) (db : DB) (now uid : Nat)
    (tt : VTokenType) (ne : Option Nat) (fid ftok : Nat)
    (uid' : Nat) (tt' : VTokenType)
    (h : unusedVerifCount db uid' tt' ≤ 1) :
    unusedVerifCount
      (create_verification_token s db now uid tt ne fid ftok).1 uid' tt' ≤ 1 := by
  unfold unusedVerifCount create_verification_token
  simp only [List.countP_append, List.countP_map]
  by_cases hk : uid' = uid ∧ tt' = tt
  · rcases hk with ⟨rfl, rfl⟩
    have h0 : List.countP
        ((fun t => t.user_id == uid' && decide (t.token_type = tt') && !t.is_used) ∘
         (fun t => if t.user_id == uid' && decide (t.token_type = tt') && !t.is_used
             then { t with is_used := true } else t))
        db.verification_tokens = 0 := by
      rw [List.countP_eq_zero]
      intro a _
      by_cases hc : (a.user_id == uid' && decide (a.token_type = tt') && !a.is_used) = true
      · simp [Function.comp, hc]
      · simp [Function.comp, hc]
    rw [h0]
    simp [unusedVerifCount]
  · have hcongr : List.countP
        ((fun t => t.user_id == uid' && decide (t.token_type = tt') && !t.is_used) ∘
         (fun t => if t.user_id == uid && decide (t.token_type = tt) && !t.is_used
             then { t with is_used := true } else t))
        db.verification_tokens
        = List.countP
            (fun t => t.user_id == uid' && decide (t.token_type = tt') && !t.is_used)
            db.verification_tokens := by
      apply List.countP_congr
      intro a _
      by_cases hc : (a.user_id == uid && decide (a.token_type = tt) && !a.is_used) = true
      · simp only [Function.comp, hc, if_true]
        constructor
        · intro hfalse
          simp only [Bool.and_eq_true, Bool.not_eq_true'] at hfalse
          exact absurd hfalse.2 (by decide)
        · intro htrue
          exfalso
          simp only [Bool.and_eq_true, beq_iff_eq, decide_eq_true_eq,
            Bool.not_eq_true'] at hc htrue
          exact hk ⟨htrue.1.1.symm.trans hc.1.1, htrue.1.2.symm.trans hc.1.2⟩
      · simp [Function.comp, hc]
    rw [hcongr]
    have hnew : List.countP
        (fun t => t.user_id == uid' && decide (t.token_type = tt') && !t.is_used)
        [({ vid := fid, token := ftok, user_id := uid, token_type := tt,
            new_email := ne,
            expires_at := now + s.VERIFICATION_TOKEN_EXPIRE_HOURS * 3600 }
          : VerificationTokenR)] = 0 := by
      rw [List.countP_eq_zero]
      intro a ha
      rcases List.mem_singleton.mp ha with rfl
      intro hcl
      simp only [Bool.and_eq_true, beq_iff_eq, decide_eq_true_eq] at hcl
      exact hk ⟨hcl.1.1.symm, hcl.1.2.symm⟩
    rw [hnew] at *
    simpa [unusedVerifCount] using h

/-- Issuing a password-reset token keeps every per-user unused count at
one or below. -/
theorem unusedResetCount_create_le (s : Settings) (db : DB)
    (now uid fid ftok : Nat) (uid' : Nat)
    (h : unusedResetCount db uid' ≤ 1) :
    unusedResetCount
      (create_password_reset_token s db now uid fid ftok).1 uid' ≤ 1 := by
  unfold unusedResetCount create_password_reset_token
  simp only [List.countP_append, List.countP_map]
  by_cases hk : uid' = uid
  · subst hk
    have h0 : List.countP
        ((fun t => t.user_id == uid' && !t.is_used) ∘
         (fun t => if t.user_id == uid' && !t.is_used
             then { t with is_used := true } else t))
        db.password_reset_tokens = 0 := by
      rw [List.countP_eq_zero]
      intro a _
      by_cases hc : (a.user_id == uid' && !a.is_used) = true
      · simp [Function.comp, hc]
      · simp [Function.comp, hc]
    rw [h0]
    simp [unusedResetCount]
  · have hcongr : List.countP
        ((fun t => t.user_id == uid' && !t.is_used) ∘
         (fun t => if t.user_id == uid && !t.is_used
             then { t with is_used := true } else t))
        db.password_reset_tokens
        = List.countP (fun t => t.user_id == uid' && !t.is_used)
            db.password_reset_tokens := by
      apply List.countP_congr
      intro a _
      by_cases hc : (a.user_id == uid && !a.is_used) = true
      · simp only [Function.comp, hc, if_true]
        constructor
        · intro hfalse
          simp only [Bool.and_eq_true, Bool.not_eq_true'] at hfalse
          exact absurd hfalse.2 (by decide)
        · intro htrue
          exfalso
          simp only [Bool.and_eq_true, beq_iff_eq, Bool.not_eq_true'] at hc htrue
          exact hk (htrue.1.symm.trans hc.1)
      · simp [Function.comp, hc]
    rw [hcongr]
    have hnew : List.countP (fun t => t.user_id == uid' && !t.is_used)
        [({ pid := fid, token := ftok, user_id := uid,
            expires_at := now + s.PASSWORD_RESET_TOKEN_EXPIRE_HOURS * 3600 }
          : PasswordResetTokenR)] = 0 := by
      rw [List.countP_eq_zero]
      intro a ha
      rcases List.mem_singleton.mp ha with rfl
      intro hcl
      simp only [Bool.and_eq_true, beq_iff_eq] at hcl
      exact hk hcl.1.symm
    rw [hnew] at *
    simpa [unusedResetCount] using h

/-- One issuance call preserves the single-active-token invariant. -/
theorem applyIssueOp_inv (s : Settings) (db : DB) (op : IssueOp)
    (h : singleActiveInv db) : singleActiveInv (applyIssueOp s db op) := by
  rcases h with ⟨hv, hr⟩
  cases op with
  | verif now uid tt ne fid ftok =>
    constructor
    · intro uid' tt'
      show unusedVerifCount
        (create_verification_token s db now uid tt ne fid ftok).1 uid' tt' ≤ 1
      exact unusedVerifCount_create_le s db now uid tt ne fid ftok uid' tt'
        (hv uid' tt')
    · intro uid'
      show unusedResetCount
        (create_verification_token s db now uid tt ne fid ftok).1 uid' ≤ 1
      exact hr uid'
  | reset now uid fid ftok =>
    constructor
    · intro uid' tt'
      show unusedVerifCount
        (create_password_reset_token s db now uid fid ftok).1 uid' tt' ≤ 1
      exact hv uid' tt'
    · intro uid'
      show unusedResetCount
        (create_password_reset_token s db now uid fid ftok).1 uid' ≤ 1
      exact unusedResetCount_create_le s db now uid fid ftok uid' (hr uid')

/-- C8: issuing a verification token of a given `token_type`, or a
password-reset token, marks every prior unused token of the same kind
and user as used — after the call the only unused token of that
(user, kind) in the store is the freshly created one — and consequently,
over any sequence of issuance calls, at most one token per (user, kind)
is ever unused. -/
theorem C8_single_active_token (s : Settings) :
    (∀ (db : DB) (now uid : Nat) (tt : VTokenType) (ne : Option Nat)
        (fid ftok : Nat),
      ∀ t ∈ (create_verification_token s db now uid tt ne fid ftok).1.verification_tokens,
        t.user_id = uid → t.token_type = tt → t.is_used = false →
        t = (create_verification_token s db now uid tt ne fid ftok).2) ∧
    (∀ (db : DB) (now uid fid ftok : Nat),
      ∀ t ∈ (create_password_reset_token s db now uid fid ftok).1.password_reset_tokens,
        t.user_id = uid → t.is_used = false →
        t = (create_password_reset_token s db now uid fid ftok).2) ∧
    (∀ (ops : List IssueOp) (db : DB),
      singleActiveInv db → singleActiveInv (applyIssueOps s ops db)) := by
  refine ⟨?_, ?_, ?_⟩
  · intro db now uid tt ne fid ftok t ht h1 h2 h3
    simp only [create_verification_token] at ht ⊢
    rcases List.mem_append.mp ht with hm | hm
    · exfalso
      rcases List.mem_map.mp hm with ⟨t0, _, rfl⟩
      by_cases hc : (t0.user_id == uid && decide (t0.token_type = tt) && !t0.is_used)
          = true
      · rw [if_pos hc] at h3
        exact absurd h3 (by simp)
      · rw [if_neg hc] at h1 h2 h3
        exact hc (by simp [h1, h2, h3])
    · exact List.mem_singleton.mp hm
  · intro db now uid fid ftok t ht h1 h3
    simp only [create_password_reset_token] at ht ⊢
    rcases List.mem_append.mp ht with hm | hm
    · exfalso
      rcases List.mem_map.mp hm with ⟨t0, _, rfl⟩
      by_cases hc : (t0.user_id == uid && !t0.is_used) = true
      · rw [if_pos hc] at h3
        exact absurd h3 (by simp)
      · rw [if_neg hc] at h1 h3
        exact hc (by simp [h1, h3])
    · exact List.mem_singleton.mp hm
  · intro ops
    induction ops with
    | nil => intro db h; exact h
    | cons op rest ih =>
      intro db h
      exact ih _ (applyIssueOp_inv s db op h)

/-- Witness for C8: three issuance calls (two verification, one reset)
starting from the empty store keep the invariant. -/
theorem C8_single_active_token_witness :
    singleActiveInv (applyIssueOps defaultSettings
      [.verif 0 1 .email_verification none 1 2,
       .reset 3 1 3 4,
       .verif 5 1 .email_verification none 5 6] {}) :=
  (C8_single_active_token defaultSettings).2.2 _ {}
    ⟨fun uid tt => by simp [unusedVerifCount],
     fun uid => by simp [unusedResetCount]⟩

/-- C3, violated by the code: the handler re-reads nothing and performs
no conditional update or row lock between its revocation check and its
writes, so in the interleaving where both requests first perform the
step-1 lookup on the same still-Active token (each session holding its
own loaded row) and then run the rest of the handler one after the
other, BOTH calls return a fresh token pair: the second call does not
observe the first call's revocation, takes no reuse-detection path
(no alert), and the claim that at most one can succeed fails. -/
theorem C3_race_both_succeed :
    get_refresh_token raceDB 100 = some raceSnap ∧
    (refresh_from_snapshot defaultSettings 500 11 101 none none raceSnap raceDB).result
      = .ok { access_user := 1, refresh_token := 101, expires_in := 900 } ∧
    (refresh_from_snapshot defaultSettings 500 12 102 none none raceSnap
        (refresh_from_snapshot defaultSettings 500 11 101 none none raceSnap
          raceDB).db).result
      = .ok { access_user := 1, refresh_token := 102, expires_in := 900 } ∧
    (refresh_from_snapshot defaultSettings 500 12 102 none none raceSnap
        (refresh_from_snapshot defaultSettings 500 11 101 none none raceSnap
          raceDB).db).alerts = [] :=
  ⟨rfl, rfl, rfl, rfl⟩

set_option maxRecDepth 4000 in
/-- C4, counterexample: for the password consisting of 72 copies of the
two-byte character U+00E9, the byte string that `get_password_hash` and
`verify_password` hand to the bcrypt primitive is 144 bytes long, so the
code does not truncate the input to at most 72 bytes before hashing (it
truncates to 72 characters). -/
theorem C4_bytes_counterexample :
    (bytesForBcrypt (List.replicate 72 (Char.ofNat 233))).length = 144 ∧
    ¬ (bytesForBcrypt (List.replicate 72 (Char.ofNat 233))).length ≤ 72 := by
  constructor <;> decide

/-- C4, amended: both functions of `app/utils/hashing.py` truncate the
password to its first 72 characters (not bytes; the encoded result may
reach 288 bytes) before encoding and calling bcrypt. For any bcrypt
primitive pair that round-trips (`checkpw b (hashpw b) = true`),
verification succeeds on every password against its own hash, and any
two passwords sharing their first 72 characters hash and verify
identically. -/
theorem C4_char_truncation_consistency
    (hashpw : List Nat → List Nat) (checkpw : List Nat → List Nat → Bool)
    (hround : ∀ b, checkpw b (hashpw b) = true) :
    (∀ p, verify_password checkpw p (get_password_hash hashpw p) = true) ∧
    (∀ p q, p.take 72 = q.take 72 →
      get_password_hash hashpw p = get_password_hash hashpw q ∧
      ∀ h, verify_password checkpw p h = verify_password checkpw q h) := by
  refine ⟨fun p => ?_, fun p q hpq => ?_⟩
  · simpa [verify_password, get_password_hash] using hround (bytesForBcrypt p)
  · have hb : bytesForBcrypt p = bytesForBcrypt q := by
      simp [bytesForBcrypt, hpq]
    exact ⟨by simp [get_password_hash, hb], fun h => by simp [verify_password, hb]⟩

/-- Witness for C4: with a round-tripping bcrypt model, verification of a
concrete one-character password against its own hash succeeds. -/
theorem C4_char_truncation_consistency_witness :
    verify_password (fun b h => b == h) ['a']
      (get_password_hash (fun b => b) ['a']) = true :=
  (C4_char_truncation_consistency (fun b => b) (fun b h => b == h)
    (fun b => by simp)).1 ['a']

/-- C5: `increment_failed_login` adds one to the counter and sets
`locked_until := now + LOCKOUT_DURATION_MINUTES` exactly when the new
count is at least `MAX_LOGIN_ATTEMPTS` (leaving it untouched below the
threshold); `reset_failed_login` zeroes the counter, clears the lock and
records the login time; `is_user_locked` holds iff `locked_until` is set
to a strictly future instant; and the configured defaults are 5 attempts
and 30 minutes. -/
theorem C5_lockout_policy (s : Settings) (now : Nat) (u : UserR) :
    (increment_failed_login s now u).failed_login_attempts
      = u.failed_login_attempts + 1 ∧
    (s.MAX_LOGIN_ATTEMPTS ≤ u.failed_login_attempts + 1 →
      (increment_failed_login s now u).locked_until
        = some (now + s.LOCKOUT_DURATION_MINUTES * 60)) ∧
    (u.failed_login_attempts + 1 < s.MAX_LOGIN_ATTEMPTS →
      (increment_failed_login s now u).locked_until = u.locked_until) ∧
    (reset_failed_login now u).failed_login_attempts = 0 ∧
    (reset_failed_login now u).locked_until = none ∧
    (reset_failed_login now u).last_login_at = some now ∧
    (is_user_locked now u = true ↔ ∃ t, u.locked_until = some t ∧ now < t) ∧
    defaultSettings.MAX_LOGIN_ATTEMPTS = 5 ∧
    defaultSettings.LOCKOUT_DURATION_MINUTES = 30 := by
  refine ⟨?_, ?_, ?_, rfl, rfl, rfl, ?_, rfl, rfl⟩
  · simp only [increment_failed_login]
    split <;> rfl
  · intro h
    simp [increment_failed_login, h]
  · intro h
    simp [increment_failed_login, Nat.not_le.mpr h]
  · cases h : u.locked_until <;> simp [is_user_locked, h]

/-- Witness for C5: a user at four prior failures gets locked for 1800
seconds by the fifth failure, and is then locked at time 0. -/
theorem C5_lockout_policy_witness :
    (increment_failed_login defaultSettings 0
        { uid := 1, email := 10, hashed_password := 3,
          failed_login_attempts := 4 }).locked_until = some 1800 ∧
    (increment_failed_login defaultSettings 0
        { uid := 1, email := 10, hashed_password := 3,
          failed_login_attempts := 4 }).failed_login_attempts = 5 ∧
    is_user_locked 0
        { uid := 1, email := 10, hashed_password := 3,
          locked_until := some 9 } = true :=
  ⟨(C5_lockout_policy defaultSettings 0 _).2.1 (by decide),
   (C5_lockout_policy defaultSettings 0 _).1,
   ((C5_lockout_policy defaultSettings 0 _).2.2.2.2.2.2.1).mpr
     ⟨9, rfl, by decide⟩⟩

end TalksDocs
